import Mathlib

/-!
Shallow embedding of the Morphx social-feed application
(src/Morphx/app.py and src/Morphx/config.py).

The relational store is embedded as lists of rows; each Flask route
becomes a pure function from its inputs and the current store to a
response value and the updated store.  External collaborators
(werkzeug password hashing, werkzeug secure_filename, os.path.splitext)
are modelled from their documented behaviour and marked as such.
-/

namespace Morphx

/-- Configuration (config.py, class Config): the admin bootstrap
credentials.  The fields an operation reads are passed explicitly. -/
structure Config where
  ADMIN_USERNAME : String
  ADMIN_PASSWORD : String
  ADMIN_EMAIL : String
deriving Repr, DecidableEq

/-- The defaults from config.py (used when no environment override is set). -/
def defaultConfig : Config :=
  { ADMIN_USERNAME := "admin"
    ADMIN_PASSWORD := "Admin@12345"
    ADMIN_EMAIL := "admin@amrita.edu" }

/-- User row (app.py, class User). -/
structure User where
  id : Nat
  username : String
  email : String
  password_hash : String
  is_admin : Bool
  blocked : Bool
  avatar_url : String
  created_at : Nat
deriving Repr, DecidableEq

/-- Post row (app.py, class Post). -/
structure Post where
  id : Nat
  content : String
  image_url : String
  user_id : Nat
  created_at : Nat
  is_deleted : Bool
deriving Repr, DecidableEq

/-- Comment row (app.py, class Comment). -/
structure Comment where
  id : Nat
  content : String
  user_id : Nat
  post_id : Nat
  created_at : Nat
  is_deleted : Bool
deriving Repr, DecidableEq

/-- Like row (app.py, class Like). -/
structure Like where
  id : Nat
  user_id : Nat
  post_id : Nat
  created_at : Nat
deriving Repr, DecidableEq

/-- The persistent store plus the flask-login session: lists of rows,
the autoincrement counters for primary keys, and the id of the user the
current session is bound to (none when anonymous). -/
structure AppState where
  users : List User
  posts : List Post
  comments : List Comment
  likes : List Like
  nextUserId : Nat
  nextPostId : Nat
  nextLikeId : Nat
  session : Option Nat
deriving Repr, DecidableEq

/-- The empty store. -/
def emptyState : AppState :=
  { users := [], posts := [], comments := [], likes := [],
    nextUserId := 1, nextPostId := 1, nextLikeId := 1, session := none }

/-- Modelled external collaborator (werkzeug generate_password_hash):
an injective tagging of the password standing in for the salted hash. -/
def generate_password_hash (p : String) : String := "pbkdf2:" ++ p

/-- Modelled external collaborator (werkzeug check_password_hash). -/
def check_password_hash (h p : String) : Bool := h == generate_password_hash p

/-- An uploaded file as werkzeug FileStorage: only the filename matters to
the control flow of app.py (the byte payload is handed to the filesystem).
A FileStorage is truthy exactly when its filename is non-empty. -/
structure FileStorage where
  filename : String
deriving Repr, DecidableEq

/-- Python truthiness of an optional FileStorage
(werkzeug FileStorage.__bool__ is bool(self.filename)). -/
def fileTruthy : Option FileStorage → Bool
  | none => false
  | some f => f.filename != ""

/-- ALLOWED_IMAGE_EXTENSIONS (app.py line 16). -/
def ALLOWED_IMAGE_EXTENSIONS : List String := ["png", "jpg", "jpeg", "gif", "webp"]

/-- Python str.strip() (no argument): remove leading and trailing
whitespace. -/
def pyStrip (s : String) : String :=
  String.mk (((s.data.dropWhile Char.isWhitespace).reverse.dropWhile Char.isWhitespace).reverse)

/-- Python str.lower() for ASCII input. -/
def pyLower (s : String) : String :=
  String.mk (s.data.map Char.toLower)

/-- The characters werkzeug secure_filename keeps: A-Za-z0-9 dot dash
underscore. -/
def secureChar (c : Char) : Bool :=
  c.isAlphanum || c == '.' || c == '_' || c == '-'

/-- The whitespace-separated words of a character list (the helper behind
Python str.split()); the second argument accumulates the current word in
reverse. -/
def wordsAux : List Char → List Char → List (List Char)
  | [], acc => if acc = [] then [] else [acc.reverse]
  | c :: cs, acc =>
    if c.isWhitespace then
      if acc = [] then wordsAux cs [] else acc.reverse :: wordsAux cs []
    else wordsAux cs (c :: acc)

/-- Join words with single underscores ("_".join in Python). -/
def joinUnderscore : List (List Char) → List Char
  | [] => []
  | [w] => w
  | w :: ws => w ++ '_' :: joinUnderscore ws

/-- Modelled external collaborator (werkzeug secure_filename), for ASCII
input: path separators become spaces, whitespace-separated words are
joined with underscores, characters outside A-Za-z0-9 dot dash underscore
are dropped, and leading/trailing dots and underscores are stripped.
It is the identity on ordinary names such as "photo.png". -/
def secure_filename (s : String) : String :=
  let replaced := s.data.map (fun c => if c = '/' || c = '\\' then ' ' else c)
  let joined := joinUnderscore (wordsAux replaced [])
  let kept := joined.filter secureChar
  let stripped := (kept.dropWhile (fun c => c = '.' || c = '_')).reverse
  String.mk ((stripped.dropWhile (fun c => c = '.' || c = '_')).reverse)

/-- Split a character list at its last dot: some (before, dot-and-after)
when a dot occurs, none otherwise. -/
def splitAtLastDot : List Char → Option (List Char × List Char)
  | [] => none
  | c :: cs =>
    match splitAtLastDot cs with
    | some (a, b) => some (c :: a, b)
    | none => if c = '.' then some ([], '.' :: cs) else none

/-- Python filename.rsplit(".", 1)[1]: the part after the last dot
(only used under the guard that a dot is present). -/
def afterLastDot (s : String) : String :=
  match splitAtLastDot s.data with
  | none => s
  | some (_, b) => String.mk b.tail

/-- allowed_image (app.py lines 75-76). -/
def allowed_image (filename : String) : Bool :=
  filename.data.contains '.'
    && ALLOWED_IMAGE_EXTENSIONS.contains (pyLower (afterLastDot filename))

/-- Modelled external collaborator (os.path.splitext): splits a filename
into root and extension at the last dot; leading dots do not start an
extension (".bashrc" has no extension). -/
def splitext (s : String) : String × String :=
  let lead := s.data.takeWhile (fun c => c = '.')
  let rest := s.data.drop lead.length
  match splitAtLastDot rest with
  | none => (s, "")
  | some (a, b) => (String.mk (lead ++ a), String.mk b)

/-- save_image (app.py lines 78-88).  now is int(datetime.utcnow()
.timestamp()), i.e. the wall clock truncated to whole seconds.  Returns
the reference path, or "" on silent failure. -/
def save_image (file? : Option FileStorage) (now : Nat) : String :=
  if !fileTruthy file? then ""
  else
    match file? with
    | none => ""
    | some fs =>
      let filename := secure_filename fs.filename
      if !allowed_image filename then ""
      else
        let ne := splitext filename
        let safe_name := ne.1 ++ "_" ++ toString now ++ ne.2
        "/static/uploads/" ++ safe_name

/-- Result of the register route (app.py lines 105-127).
validationError: "All fields are required."; conflictError:
"Username or Email already exists."; success: redirect to login. -/
inductive RegisterResult
  | validationError
  | conflictError
  | success
deriving Repr, DecidableEq

/-- register (app.py lines 105-127): trims username, trims and lowercases
email, requires all three fields non-empty, rejects an existing username
or email, and stores the password only as its hash. -/
def register (username0 email0 password : String) (now : Nat)
    (s : AppState) : RegisterResult × AppState :=
  let username := pyStrip username0
  let email := pyLower (pyStrip email0)
  if username == "" || email == "" || password == "" then
    (.validationError, s)
  else if (s.users.find? (fun u => u.username == username || u.email == email)).isSome then
    (.conflictError, s)
  else
    let user : User :=
      { id := s.nextUserId, username := username, email := email,
        password_hash := generate_password_hash password,
        is_admin := false, blocked := false, avatar_url := "", created_at := now }
    (.success, { s with users := s.users ++ [user], nextUserId := s.nextUserId + 1 })

/-- Result of the login route (app.py lines 129-164).
authError: "Invalid admin credentials." or "Invalid username or password.";
forbiddenError: "Your account is blocked."; success: session established. -/
inductive LoginResult
  | authError
  | forbiddenError
  | success (uid : Nat)
deriving Repr, DecidableEq

/-- The tail of login (app.py lines 155-163): verify the password hash,
enforce the blocked flag for non-admins, and establish the session. -/
def loginCheck (user? : Option User) (password : String)
    (s : AppState) : LoginResult × AppState :=
  match user? with
  | none => (.authError, s)
  | some user =>
    if check_password_hash user.password_hash password then
      if user.blocked && !user.is_admin then
        (.forbiddenError, s)
      else
        (.success user.id, { s with session := some user.id })
    else (.authError, s)

/-- login (app.py lines 129-164): for role admin the username must equal
the configured admin identity, and the admin account is created and
committed on first admin login before the password is verified. -/
def login (cfg : Config) (username0 password role0 : String) (now : Nat)
    (s : AppState) : LoginResult × AppState :=
  let username := pyStrip username0
  let role := pyStrip role0
  if role == "admin" then
    if username != cfg.ADMIN_USERNAME then (.authError, s)
    else
      match s.users.find? (fun u => u.username == cfg.ADMIN_USERNAME) with
      | some user => loginCheck (some user) password s
      | none =>
        let user : User :=
          { id := s.nextUserId, username := cfg.ADMIN_USERNAME,
            email := cfg.ADMIN_EMAIL,
            password_hash := generate_password_hash cfg.ADMIN_PASSWORD,
            is_admin := true, blocked := false, avatar_url := "", created_at := now }
        let s1 : AppState :=
          { s with users := s.users ++ [user], nextUserId := s.nextUserId + 1 }
        loginCheck (some user) password s1
  else
    loginCheck (s.users.find? (fun u => u.username == username)) password s

/-- Result of the create_post route (app.py lines 199-214). -/
inductive CreatePostResult
  | validationError
  | success
deriving Repr, DecidableEq

/-- create_post (app.py lines 199-214): requires trimmed content non-empty
or a truthy image file; saves the image (possibly yielding an empty url)
and persists the post owned by the session user. -/
def create_post (uid : Nat) (content0 : String) (image : Option FileStorage)
    (now : Nat) (s : AppState) : CreatePostResult × AppState :=
  let content := pyStrip content0
  if content == "" && !fileTruthy image then
    (.validationError, s)
  else
    let image_url := if fileTruthy image then save_image image now else ""
    let post : Post :=
      { id := s.nextPostId, content := content, image_url := image_url,
        user_id := uid, created_at := now, is_deleted := false }
    (.success, { s with posts := s.posts ++ [post], nextPostId := s.nextPostId + 1 })

/-- Response of the like route (app.py lines 216-230).  notFound is the
HTTP 404 page produced by get_or_404; postRemoved is the JSON body
ok=false, message="Post removed" with HTTP 400; toggled carries the JSON
body ok=true with the liked flag and the fresh like count (HTTP 200). -/
inductive LikeResult
  | notFound
  | postRemoved
  | toggled (liked : Bool) (count : Nat)
deriving Repr, DecidableEq

/-- The HTTP status code each like response is sent with. -/
def LikeResult.httpStatus : LikeResult → Nat
  | .notFound => 404
  | .postRemoved => 400
  | .toggled _ _ => 200

/-- len(post.likes): the number of Like rows whose post_id is pid. -/
def postLikeCount (s : AppState) (pid : Nat) : Nat :=
  (s.likes.filter (fun l => l.post_id == pid)).length

/-- The row predicate of Like.query.filter_by(user_id=uid, post_id=pid). -/
def likeMatch (uid pid : Nat) (l : Like) : Bool :=
  l.user_id == uid && l.post_id == pid

/-- like_post (app.py lines 216-230): 404 when the post id is absent,
400 when the post is soft-deleted, otherwise removes the caller's
existing like or inserts one and reports the new count. -/
def like_post (uid pid : Nat) (now : Nat) (s : AppState) :
    LikeResult × AppState :=
  match s.posts.find? (fun p => p.id == pid) with
  | none => (.notFound, s)
  | some post =>
    if post.is_deleted then (.postRemoved, s)
    else
      match s.likes.find? (likeMatch uid pid) with
      | some _ =>
        let s1 : AppState := { s with likes := s.likes.eraseP (likeMatch uid pid) }
        (.toggled false (postLikeCount s1 pid), s1)
      | none =>
        let lk : Like :=
          { id := s.nextLikeId, user_id := uid, post_id := pid, created_at := now }
        let s1 : AppState :=
          { s with likes := s.likes ++ [lk], nextLikeId := s.nextLikeId + 1 }
        (.toggled true (postLikeCount s1 pid), s1)

/-- Insert a post into a list sorted by created_at descending. -/
def insertDesc (p : Post) : List Post → List Post
  | [] => [p]
  | q :: qs => if q.created_at ≤ p.created_at then p :: q :: qs else q :: insertDesc p qs

/-- Sort posts by created_at descending
(Post.query.order_by(Post.created_at.desc())). -/
def sortDesc : List Post → List Post
  | [] => []
  | p :: ps => insertDesc p (sortDesc ps)

/-- index (app.py lines 90-99): the feed is the non-deleted posts ordered
by creation time descending. -/
def index (s : AppState) : List Post :=
  sortDesc (s.posts.filter (fun p => p.is_deleted == false))

/-- admin_only (app.py lines 249-250): the caller is an authenticated
user with the admin flag. -/
def admin_only (caller : Option User) : Bool :=
  match caller with
  | none => false
  | some u => u.is_admin

/-- Response of the admin moderation routes: 403 JSON when the caller is
not an admin, the 404 page when the row is absent, ok=true otherwise. -/
inductive AdminResult
  | forbidden
  | notFound
  | ok
deriving Repr, DecidableEq

/-- admin_delete_post (app.py lines 284-292): sets the post's soft-delete
flag; the row (and its comments and likes) stays in storage. -/
def admin_delete_post (caller : Option User) (pid : Nat) (s : AppState) :
    AdminResult × AppState :=
  if !admin_only caller then (.forbidden, s)
  else
    match s.posts.find? (fun p => p.id == pid) with
    | none => (.notFound, s)
    | some _ =>
      let ps := s.posts.map (fun p => if p.id == pid then { p with is_deleted := true } else p)
      (.ok, { s with posts := ps })

/-- admin_restore_post (app.py lines 294-302): clears the post's
soft-delete flag. -/
def admin_restore_post (caller : Option User) (pid : Nat) (s : AppState) :
    AdminResult × AppState :=
  if !admin_only caller then (.forbidden, s)
  else
    match s.posts.find? (fun p => p.id == pid) with
    | none => (.notFound, s)
    | some _ =>
      let ps := s.posts.map (fun p => if p.id == pid then { p with is_deleted := false } else p)
      (.ok, { s with posts := ps })

/-! Concrete sample rows and stores used to instantiate the theorems. -/

/-- A registered ordinary user. -/
def aliceU : User :=
  { id := 1, username := "alice", email := "a@x.com",
    password_hash := generate_password_hash "pw1",
    is_admin := false, blocked := false, avatar_url := "", created_at := 0 }

/-- A post by alice. -/
def helloP : Post :=
  { id := 1, content := "hello", image_url := "", user_id := 1,
    created_at := 10, is_deleted := false }

/-- A store with one user and one visible post and no likes. -/
def baseState : AppState :=
  { users := [aliceU], posts := [helloP], comments := [], likes := [],
    nextUserId := 2, nextPostId := 2, nextLikeId := 1, session := none }

/-- baseState after alice has liked her post. -/
def likedState : AppState :=
  { baseState with
    likes := [{ id := 1, user_id := 1, post_id := 1, created_at := 12 }],
    nextLikeId := 2 }

/-- The store state after like_post inserts a fresh like row. -/
def addLikeState (uid pid t : Nat) (s : AppState) : AppState :=
  { s with
    likes := s.likes ++ [{ id := s.nextLikeId, user_id := uid, post_id := pid, created_at := t }],
    nextLikeId := s.nextLikeId + 1 }

/-- baseState with the post soft-deleted. -/
def deletedState : AppState :=
  { baseState with posts := [{ helloP with is_deleted := true }] }

end Morphx

namespace Morphx

/-- C1 (counterexample): the claim quantifies over every user and every
existing non-soft-deleted post, but when the user already holds a like on
the post, the second of two successive ToggleLike calls reports
liked=true (it re-creates the like removed by the first call), and the
user again holds a like on the post. -/
theorem C1_counterexample :
    (likedState.posts.find? (fun p => p.id == 1) = some helloP) ∧
    helloP.is_deleted = false ∧
    ((likedState.likes.find? (likeMatch 1 1)).isSome = true) ∧
    (like_post 1 1 21 (like_post 1 1 20 likedState).2).1 = .toggled true 1 ∧
    ((like_post 1 1 21 (like_post 1 1 20 likedState).2).2.likes.find?
        (likeMatch 1 1)).isSome = true := by
  decide

/-- C1 (amended): when the user holds no like on the existing,
non-soft-deleted post, the first ToggleLike reports liked=true with the
count incremented, the second reports liked=false with the count back at
its original value, and the likes table returns to exactly its original
rows. -/
theorem C1_toggle_twice (uid pid t1 t2 : Nat) (s : AppState) (post : Post)
    (hp : s.posts.find? (fun p => p.id == pid) = some post)
    (hdel : post.is_deleted = false)
    (hnl : s.likes.find? (likeMatch uid pid) = none) :
    (like_post uid pid t1 s).1 = .toggled true (postLikeCount s pid + 1) ∧
    (like_post uid pid t2 (like_post uid pid t1 s).2).1
      = .toggled false (postLikeCount s pid) ∧
    (like_post uid pid t2 (like_post uid pid t1 s).2).2.likes = s.likes := by
  have hmatch : likeMatch uid pid
      { id := s.nextLikeId, user_id := uid, post_id := pid, created_at := t1 } = true := by
    simp [likeMatch]
  have hnone : ∀ b ∈ s.likes, ¬likeMatch uid pid b = true :=
    List.find?_eq_none.mp hnl
  have h1 : like_post uid pid t1 s =
      (.toggled true (postLikeCount s pid + 1), addLikeState uid pid t1 s) := by
    unfold like_post
    rw [hp]
    simp only [hdel]
    rw [hnl]
    simp [addLikeState, postLikeCount, List.filter_append, likeMatch]
  have herase :
      ((addLikeState uid pid t1 s).likes).eraseP (likeMatch uid pid) = s.likes := by
    unfold addLikeState
    rw [List.eraseP_append_right _ hnone]
    simp [List.eraseP_cons, hmatch]
  have hfind : ((addLikeState uid pid t1 s).likes).find? (likeMatch uid pid) =
      some { id := s.nextLikeId, user_id := uid, post_id := pid, created_at := t1 } := by
    unfold addLikeState
    rw [List.find?_append, hnl]
    simp [List.find?_cons, hmatch]
  have h2 : like_post uid pid t2 (like_post uid pid t1 s).2 =
      (.toggled false (postLikeCount s pid),
        { addLikeState uid pid t1 s with likes := s.likes }) := by
    rw [h1]
    unfold like_post
    have hposts : (addLikeState uid pid t1 s).posts = s.posts := rfl
    rw [hposts, hp]
    simp only [hdel]
    rw [hfind]
    simp only [herase]
    rfl
  refine ⟨by rw [h1], by rw [h2], by rw [h2]⟩

/-- C1 witness: at the concrete one-post store with no prior like, two
toggles end with liked=false, count 0 and an empty likes table. -/
theorem C1_toggle_twice_witness :
    (like_post 1 1 21 (like_post 1 1 20 baseState).2).1 = .toggled false 0 ∧
    (like_post 1 1 21 (like_post 1 1 20 baseState).2).2.likes = [] :=
  ⟨(C1_toggle_twice 1 1 20 21 baseState helloP (by decide) (by decide) (by decide)).2.1,
   (C1_toggle_twice 1 1 20 21 baseState helloP (by decide) (by decide) (by decide)).2.2⟩

/-- C2 (counterexample): on a soft-deleted post ToggleLike does fail, but
with the HTTP 400 ok=false "Post removed" response, not with the 404
NotFound response that get_or_404 produces for a missing post. -/
theorem C2_counterexample :
    (like_post 1 1 20 deletedState).1 = .postRemoved ∧
    (like_post 1 1 20 deletedState).1 ≠ .notFound ∧
    (like_post 1 1 20 deletedState).1.httpStatus = 400 ∧
    ¬(like_post 1 1 20 deletedState).1.httpStatus = 404 := by
  decide

/-- C2 (amended): ToggleLike fails whenever the post is missing (404
NotFound) or soft-deleted (HTTP 400 "Post removed"), and in both cases
the store — likes included — is left unchanged. -/
theorem C2_like_missing_or_deleted (uid pid now : Nat) (s : AppState) :
    (s.posts.find? (fun p => p.id == pid) = none →
      like_post uid pid now s = (.notFound, s)) ∧
    (∀ post, s.posts.find? (fun p => p.id == pid) = some post →
      post.is_deleted = true →
      like_post uid pid now s = (.postRemoved, s)) ∧
    LikeResult.notFound.httpStatus = 404 ∧
    LikeResult.postRemoved.httpStatus = 400 := by
  refine ⟨?_, ?_, rfl, rfl⟩
  · intro h
    simp [like_post, h]
  · intro post h hdel
    simp [like_post, h, hdel]

/-- C2 witness: a missing post id and a soft-deleted post at the concrete
store both fail and leave the store unchanged. -/
theorem C2_like_missing_or_deleted_witness :
    like_post 1 7 20 deletedState = (.notFound, deletedState) ∧
    like_post 1 1 20 deletedState = (.postRemoved, deletedState) :=
  ⟨(C2_like_missing_or_deleted 1 7 20 deletedState).1 (by decide),
   (C2_like_missing_or_deleted 1 1 20 deletedState).2.1 { helloP with is_deleted := true }
     (by decide) rfl⟩

/-- C3 (counterexample): the timestamp suffix has whole-second
granularity, so two calls in the same second are not collision-resistant:
saving "a.png" twice in second 5 yields the same path both times, and even
the distinct filenames "a!.png" and "a?.png" sanitize to the same stored
name and collide within a second. -/
theorem C3_counterexample :
    save_image (some { filename := "a.png" }) 5 = "/static/uploads/a_5.png" ∧
    save_image (some { filename := "a.png" }) 5
      = save_image (some { filename := "a.png" }) 5 ∧
    save_image (some { filename := "a!.png" }) 5
      = save_image (some { filename := "a?.png" }) 5 ∧
    save_image (some { filename := "a!.png" }) 5 ≠ "" := by
  refine ⟨rfl, rfl, rfl, by decide⟩

/-- C3 (amended): SaveImage returns "" when the blob is missing, the
filename is empty, or the sanitized filename's extension is not an
allowed image extension; otherwise it returns the non-empty path
"/static/uploads/{name}_{timestamp}{ext}" built from the sanitized
original name and the whole-second timestamp.  Within one second the
name is not collision-resistant: equal sanitized names give equal paths. -/
theorem C3_save_image (fs : FileStorage) (t : Nat) :
    (save_image none t = "") ∧
    (fs.filename = "" → save_image (some fs) t = "") ∧
    (allowed_image (secure_filename fs.filename) = false →
      save_image (some fs) t = "") ∧
    (fs.filename ≠ "" → allowed_image (secure_filename fs.filename) = true →
      save_image (some fs) t
        = "/static/uploads/" ++ (splitext (secure_filename fs.filename)).1
            ++ "_" ++ toString t ++ (splitext (secure_filename fs.filename)).2 ∧
      save_image (some fs) t ≠ "") := by
  refine ⟨rfl, ?_, ?_, ?_⟩
  · intro h
    simp [save_image, fileTruthy, h]
  · intro h
    by_cases hf : fs.filename = ""
    · simp [save_image, fileTruthy, hf]
    · have hft : fileTruthy (some fs) = true := by simp [fileTruthy, hf]
      simp [save_image, hft, h]
  · intro hf hall
    have hft : fileTruthy (some fs) = true := by simp [fileTruthy, hf]
    have hpath : save_image (some fs) t
        = "/static/uploads/" ++ ((splitext (secure_filename fs.filename)).1
            ++ "_" ++ toString t ++ (splitext (secure_filename fs.filename)).2) := by
      simp [save_image, hft, hall]
    refine ⟨by rw [hpath]; simp [String.append_assoc], ?_⟩
    intro hempty
    have hlen := congrArg String.length hempty
    rw [hpath, String.length_append] at hlen
    have h16 : ("/static/uploads/" : String).length = 16 := rfl
    have h0 : ("" : String).length = 0 := rfl
    rw [h16, h0] at hlen
    omega

/-- C3 witness: saving "photo.png" at second 1000 yields the non-empty
path "/static/uploads/photo_1000.png"; the validation failures return "". -/
theorem C3_save_image_witness :
    save_image (some { filename := "photo.png" }) 1000
      = "/static/uploads/photo_1000.png" ∧
    save_image (some { filename := "photo.exe" }) 1000 = "" ∧
    save_image (some { filename := "" }) 1000 = "" :=
  ⟨by
    have h := (C3_save_image { filename := "photo.png" } 1000).2.2.2
      (by decide) (by decide)
    rw [h.1]
    rfl,
   (C3_save_image { filename := "photo.exe" } 1000).2.2.1 (by decide),
   (C3_save_image { filename := "" } 1000).2.1 rfl⟩

/-- C4 (counterexample): with empty content and an image file bearing a
disallowed extension, create_post passes validation (the file object is
truthy), save_image silently returns "", and a post with both empty
content and an empty image reference is persisted. -/
theorem C4_counterexample :
    (create_post 1 "" (some { filename := "a.exe" }) 30 baseState).1 = .success ∧
    ({ id := 2, content := "", image_url := "", user_id := 1,
        created_at := 30, is_deleted := false } : Post)
      ∈ (create_post 1 "" (some { filename := "a.exe" }) 30 baseState).2.posts := by
  exact ⟨rfl, by decide⟩

/-- C4 (amended): create_post fails exactly when the trimmed content is
empty and the image file is missing or has an empty filename (leaving the
store unchanged); otherwise it appends exactly one new post owned by the
caller — but that post's image reference is whatever save_image returned,
which is empty when the image fails validation, so the claimed invariant
that no persisted post has both empty content and empty image does not
hold. -/
theorem C4_create_post (uid : Nat) (content0 : String) (image : Option FileStorage)
    (now : Nat) (s : AppState) :
    (pyStrip content0 = "" → fileTruthy image = false →
      create_post uid content0 image now s = (.validationError, s)) ∧
    (¬(pyStrip content0 = "" ∧ fileTruthy image = false) →
      (create_post uid content0 image now s).1 = .success ∧
      (create_post uid content0 image now s).2.posts
        = s.posts ++ [{ id := s.nextPostId, content := pyStrip content0, image_url := if fileTruthy image then save_image image now else "", user_id := uid, created_at := now, is_deleted := false }]) := by
  constructor
  · intro h1 h2
    simp [create_post, h1, h2]
  · intro h
    have hcond : ((pyStrip content0 == "") && !fileTruthy image) = false := by
      by_cases hf : fileTruthy image = true
      · simp [hf]
      · have hf2 : fileTruthy image = false := by
          revert hf
          cases fileTruthy image <;> simp
        have hc : ¬pyStrip content0 = "" := fun hcc => h ⟨hcc, hf2⟩
        simp [hc]
    simp [create_post, hcond]

/-- C4 witness: alice posts "hi" with no image; exactly her new post is
appended. -/
theorem C4_create_post_witness :
    (create_post 1 "hi" none 30 baseState).1 = .success ∧
    (create_post 1 "hi" none 30 baseState).2.posts
      = baseState.posts ++ [{ id := 2, content := "hi", image_url := "", user_id := 1, created_at := 30, is_deleted := false }] := by
  have h := (C4_create_post 1 "hi" none 30 baseState).2 (by decide)
  exact ⟨h.1, by rw [h.2]; decide⟩

/-- The admin row login provisions on first admin login
(app.py lines 144-151). -/
def adminRow (cfg : Config) (now : Nat) (s : AppState) : User :=
  { id := s.nextUserId, username := cfg.ADMIN_USERNAME, email := cfg.ADMIN_EMAIL,
    password_hash := generate_password_hash cfg.ADMIN_PASSWORD,
    is_admin := true, blocked := false, avatar_url := "", created_at := now }

/-- The store after the lazy admin provisioning commit. -/
def provisionState (cfg : Config) (now : Nat) (s : AppState) : AppState :=
  { s with users := s.users ++ [adminRow cfg now s], nextUserId := s.nextUserId + 1 }

/-- The modelled hash verifies exactly the original password. -/
lemma hash_check (a p : String) :
    check_password_hash (generate_password_hash a) p = (a == p) := by
  by_cases h : a = p
  · simp [h, check_password_hash]
  · have hne : ¬generate_password_hash a = generate_password_hash p := by
      intro habs
      apply h
      have hd := congrArg String.data habs
      simp only [generate_password_hash, String.data_append] at hd
      exact String.ext (List.append_cancel_left hd)
    simp [check_password_hash, h, hne]

/-- On an admin-role login with the configured admin username and no
existing admin row, login provisions and commits the admin account and
then verifies the submitted password against it. -/
lemma login_admin_provision (cfg : Config) (username0 password role0 : String)
    (now : Nat) (s : AppState)
    (hrole : pyStrip role0 = "admin")
    (huser : pyStrip username0 = cfg.ADMIN_USERNAME)
    (hnone : s.users.find? (fun u => u.username == cfg.ADMIN_USERNAME) = none) :
    login cfg username0 password role0 now s
      = loginCheck (some (adminRow cfg now s)) password (provisionState cfg now s) := by
  unfold login
  rw [hrole, huser]
  simp only [beq_self_eq_true, if_true, bne_self_eq_false, Bool.false_eq_true, if_false]
  rw [hnone]
  rfl

/-- First admin login, fully evaluated: the provisioned store is kept and
the outcome depends only on whether the submitted password equals the
configured admin password. -/
lemma login_admin_first (cfg : Config) (username0 password role0 : String)
    (now : Nat) (s : AppState)
    (hrole : pyStrip role0 = "admin")
    (huser : pyStrip username0 = cfg.ADMIN_USERNAME)
    (hnone : s.users.find? (fun u => u.username == cfg.ADMIN_USERNAME) = none) :
    login cfg username0 password role0 now s
      = if cfg.ADMIN_PASSWORD == password then
          (.success s.nextUserId, { provisionState cfg now s with session := some s.nextUserId })
        else (.authError, provisionState cfg now s) := by
  rw [login_admin_provision cfg username0 password role0 now s hrole huser hnone]
  have h1 : (adminRow cfg now s).password_hash = generate_password_hash cfg.ADMIN_PASSWORD := rfl
  have h2 : (adminRow cfg now s).blocked = false := rfl
  have h3 : (adminRow cfg now s).is_admin = true := rfl
  have h4 : (adminRow cfg now s).id = s.nextUserId := rfl
  simp only [loginCheck, h1, h2, h3, h4, hash_check]
  simp only [Bool.not_true, Bool.false_and, Bool.false_eq_true, if_false]

/-- C5: with role=admin, login fails with AuthError unless the submitted
username equals the configured admin identity; when it does and no
account with that username exists, the admin row (is_admin=true) is
created and committed before credential verification: it is present in
the resulting store whether the password then matches or not, and the
login outcome is determined against the provisioned account. -/
theorem C5_admin_login (cfg : Config) (username0 password role0 : String)
    (now : Nat) (s : AppState)
    (hrole : pyStrip role0 = "admin") :
    (pyStrip username0 ≠ cfg.ADMIN_USERNAME →
      login cfg username0 password role0 now s = (.authError, s)) ∧
    (pyStrip username0 = cfg.ADMIN_USERNAME →
      s.users.find? (fun u => u.username == cfg.ADMIN_USERNAME) = none →
      (login cfg username0 password role0 now s).2.users
          = s.users ++ [adminRow cfg now s] ∧
      (adminRow cfg now s).is_admin = true ∧
      (password = cfg.ADMIN_PASSWORD →
        (login cfg username0 password role0 now s).1 = .success s.nextUserId) ∧
      (password ≠ cfg.ADMIN_PASSWORD →
        (login cfg username0 password role0 now s).1 = .authError)) := by
  constructor
  · intro hne
    unfold login
    rw [hrole]
    have hbne : (pyStrip username0 != cfg.ADMIN_USERNAME) = true := by
      simp [hne]
    simp only [beq_self_eq_true, if_true, hbne]
  · intro huser hnone
    have hbranch := login_admin_first cfg username0 password role0 now s hrole huser hnone
    refine ⟨?_, rfl, ?_, ?_⟩
    · rw [hbranch]
      by_cases hpw : cfg.ADMIN_PASSWORD = password
      · simp only [hpw, beq_self_eq_true, if_true]
        rfl
      · have hbeq : (cfg.ADMIN_PASSWORD == password) = false := by simp [hpw]
        rw [hbeq]
        rfl
    · intro hpw
      rw [hbranch, hpw]
      simp only [beq_self_eq_true, if_true]
    · intro hpw
      rw [hbranch]
      have hbeq : (cfg.ADMIN_PASSWORD == password) = false := by
        simp
        exact fun habs => hpw habs.symm
      rw [hbeq]
      rfl

/-- C5 witness: at the default configuration and the empty store, a
wrong-username admin login fails and changes nothing, while a first
admin login with the right username provisions the admin account; the
provisioned row persists even when the password is wrong. -/
theorem C5_admin_login_witness :
    login defaultConfig "bob" "pw" "admin" 9 emptyState = (.authError, emptyState) ∧
    (login defaultConfig "admin" "nope" "admin" 9 emptyState).2.users
      = emptyState.users ++ [adminRow defaultConfig 9 emptyState] ∧
    (login defaultConfig "admin" "nope" "admin" 9 emptyState).1 = .authError :=
  ⟨(C5_admin_login defaultConfig "bob" "pw" "admin" 9 emptyState (by decide)).1 (by decide),
   ((C5_admin_login defaultConfig "admin" "nope" "admin" 9 emptyState (by decide)).2
     (by decide) rfl).1,
   ((C5_admin_login defaultConfig "admin" "nope" "admin" 9 emptyState (by decide)).2
     (by decide) rfl).2.2.2 (by decide)⟩

/-- C10: when role=admin, the username is the configured admin identity
and no such account exists, the freshly provisioned admin account is
committed before password verification, so when the submitted password
is wrong login returns AuthError while the store has durably changed
(the admin row is in the user table and the state differs from the
original): the operation is not atomic on error. -/
theorem C10_lazy_admin_commit (cfg : Config) (username0 password role0 : String)
    (now : Nat) (s : AppState)
    (hrole : pyStrip role0 = "admin")
    (huser : pyStrip username0 = cfg.ADMIN_USERNAME)
    (hnone : s.users.find? (fun u => u.username == cfg.ADMIN_USERNAME) = none)
    (hpw : password ≠ cfg.ADMIN_PASSWORD) :
    (login cfg username0 password role0 now s).1 = .authError ∧
    (login cfg username0 password role0 now s).2.users
      = s.users ++ [adminRow cfg now s] ∧
    (login cfg username0 password role0 now s).2 ≠ s := by
  have hbranch := login_admin_first cfg username0 password role0 now s hrole huser hnone
  have hbeq : (cfg.ADMIN_PASSWORD == password) = false := by
    simp
    exact fun habs => hpw habs.symm
  have hres : login cfg username0 password role0 now s
      = (.authError, provisionState cfg now s) := by
    rw [hbranch, hbeq]
    rfl
  refine ⟨by rw [hres], by rw [hres]; rfl, ?_⟩
  rw [hres]
  intro habs
  have husers := congrArg (fun st => st.users.length) habs
  simp only [provisionState, List.length_append, List.length_cons, List.length_nil] at husers
  omega

/-- C10 witness: first admin login with a wrong password at the empty
store fails with AuthError yet leaves the provisioned admin row behind. -/
theorem C10_lazy_admin_commit_witness :
    (login defaultConfig "admin" "nope" "admin" 9 emptyState).1 = .authError ∧
    (login defaultConfig "admin" "nope" "admin" 9 emptyState).2.users
      = emptyState.users ++ [adminRow defaultConfig 9 emptyState] ∧
    (login defaultConfig "admin" "nope" "admin" 9 emptyState).2 ≠ emptyState :=
  C10_lazy_admin_commit defaultConfig "admin" "nope" "admin" 9 emptyState
    (by decide) (by decide) rfl (by decide)

/-- The user row register inserts (app.py line 121). -/
def regRow (username0 email0 password : String) (now : Nat) (s : AppState) : User :=
  { id := s.nextUserId, username := pyStrip username0, email := pyLower (pyStrip email0),
    password_hash := generate_password_hash password,
    is_admin := false, blocked := false, avatar_url := "", created_at := now }

/-- register ends in exactly one of its three outcomes, and only the
success outcome changes the store. -/
lemma register_cases (username0 email0 password : String) (now : Nat) (s : AppState) :
    register username0 email0 password now s = (.validationError, s) ∨
    register username0 email0 password now s = (.conflictError, s) ∨
    ((pyStrip username0 ≠ "" ∧ pyLower (pyStrip email0) ≠ "" ∧ password ≠ "") ∧
      (s.users.find? (fun u => u.username == pyStrip username0
        || u.email == pyLower (pyStrip email0))) = none ∧
      register username0 email0 password now s
        = (.success, { s with users := s.users ++ [regRow username0 email0 password now s], nextUserId := s.nextUserId + 1 })) := by
  by_cases h1 : ((pyStrip username0 == "") || (pyLower (pyStrip email0) == "")
      || (password == "")) = true
  · left
    unfold register
    rw [if_pos h1]
  · by_cases h2 : ((s.users.find? (fun u => u.username == pyStrip username0
        || u.email == pyLower (pyStrip email0))).isSome) = true
    · right; left
      unfold register
      rw [if_neg h1, if_pos h2]
    · right; right
      have hprops : pyStrip username0 ≠ "" ∧ pyLower (pyStrip email0) ≠ "" ∧ password ≠ "" := by
        simp only [Bool.or_eq_true, beq_iff_eq] at h1
        push_neg at h1
        exact ⟨h1.1.1, h1.1.2, h1.2⟩
      have hnone : (s.users.find? (fun u => u.username == pyStrip username0
          || u.email == pyLower (pyStrip email0))) = none := by
        cases hopt : (s.users.find? (fun u => u.username == pyStrip username0
            || u.email == pyLower (pyStrip email0))) with
        | none => rfl
        | some v => rw [hopt] at h2; exact absurd rfl h2
      refine ⟨hprops, hnone, ?_⟩
      unfold register
      rw [if_neg h1, if_neg h2]
      rfl

/-- C7: register fails with ValidationError when any (trimmed) field is
empty and with ConflictError when the username or email is already taken
(in particular registering the same username twice), both leaving the
store unchanged; otherwise it appends exactly the new user, whose
password is stored only as its hash. -/
theorem C7_register (username0 email0 password : String) (now : Nat) (s : AppState) :
    (pyStrip username0 = "" ∨ pyLower (pyStrip email0) = "" ∨ password = "" →
      register username0 email0 password now s = (.validationError, s)) ∧
    (pyStrip username0 ≠ "" → pyLower (pyStrip email0) ≠ "" → password ≠ "" →
      (∃ u ∈ s.users, u.username = pyStrip username0 ∨ u.email = pyLower (pyStrip email0)) →
      register username0 email0 password now s = (.conflictError, s)) ∧
    (pyStrip username0 ≠ "" → pyLower (pyStrip email0) ≠ "" → password ≠ "" →
      (∀ u ∈ s.users, u.username ≠ pyStrip username0 ∧ u.email ≠ pyLower (pyStrip email0)) →
      register username0 email0 password now s
        = (.success, { s with users := s.users ++ [regRow username0 email0 password now s], nextUserId := s.nextUserId + 1 }) ∧
      (regRow username0 email0 password now s).password_hash
        = generate_password_hash password) ∧
    ((register username0 email0 password now s).1 = .success →
      ∀ email1 password1 : String, ∀ now1 : Nat,
        (register username0 email1 password1 now1
          (register username0 email0 password now s).2).1 ≠ .success) := by
  refine ⟨?_, ?_, ?_, ?_⟩
  · intro h
    have hcond : ((pyStrip username0 == "") || (pyLower (pyStrip email0) == "")
        || (password == "")) = true := by
      rcases h with h | h | h <;> simp [h]
    unfold register
    rw [if_pos hcond]
  · intro hu he hp ⟨u, hmem, hor⟩
    have hcond : ((pyStrip username0 == "") || (pyLower (pyStrip email0) == "")
        || (password == "")) = true → False := by
      simp [hu, he, hp]
    have hfind : ((s.users.find? (fun v => v.username == pyStrip username0
        || v.email == pyLower (pyStrip email0))).isSome) = true := by
      refine List.find?_isSome.mpr ⟨u, hmem, ?_⟩
      rcases hor with h | h <;> simp [h]
    unfold register
    rw [if_neg hcond, if_pos hfind]
  · intro hu he hp hnone
    have hcond : ((pyStrip username0 == "") || (pyLower (pyStrip email0) == "")
        || (password == "")) = true → False := by
      simp [hu, he, hp]
    have hfind : (s.users.find? (fun v => v.username == pyStrip username0
        || v.email == pyLower (pyStrip email0))) = none := by
      refine List.find?_eq_none.mpr ?_
      intro u hmem
      have := hnone u hmem
      simp [this.1, this.2]
    refine ⟨?_, rfl⟩
    unfold register
    rw [if_neg hcond]
    have hfs : ((s.users.find? (fun v => v.username == pyStrip username0
        || v.email == pyLower (pyStrip email0))).isSome) = false := by
      rw [hfind]; rfl
    rw [if_neg (by rw [hfs]; exact fun h => Bool.false_ne_true h)]
    rfl
  · intro hsucc email1 password1 now1
    have husers : (register username0 email0 password now s).2.users
        = s.users ++ [regRow username0 email0 password now s] := by
      rcases register_cases username0 email0 password now s with h | h | ⟨_, _, h⟩
      · rw [h] at hsucc; simp at hsucc
      · rw [h] at hsucc; simp at hsucc
      · rw [h]
    intro habs
    rcases register_cases username0 email1 password1 now1
        (register username0 email0 password now s).2 with h2 | h2 | ⟨_, hnone2, _⟩
    · rw [h2] at habs; simp at habs
    · rw [h2] at habs; simp at habs
    · have hmem : regRow username0 email0 password now s
          ∈ (register username0 email0 password now s).2.users := by
        rw [husers]
        exact List.mem_append_right _ (List.mem_singleton.mpr rfl)
      have hnp := List.find?_eq_none.mp hnone2 _ hmem
      apply hnp
      simp [regRow]

/-- C7 witness: at the empty store, registering alice succeeds and stores
the hashed password; an empty username is rejected; registering the
username alice again afterwards is never a success. -/
theorem C7_register_witness :
    register "alice" " A@X.com " "pw1" 5 emptyState
      = (.success, { emptyState with users := emptyState.users ++ [regRow "alice" " A@X.com " "pw1" 5 emptyState], nextUserId := 2 }) ∧
    register "" "a@x.com" "pw" 5 emptyState = (.validationError, emptyState) ∧
    (register "alice" "b@y.com" "pw2" 6
      (register "alice" " A@X.com " "pw1" 5 emptyState).2).1 ≠ .success :=
  ⟨((C7_register "alice" " A@X.com " "pw1" 5 emptyState).2.2.1
      (by decide) (by decide) (by decide) (by decide)).1,
   (C7_register "" "a@x.com" "pw" 5 emptyState).1 (Or.inl (by decide)),
   (C7_register "alice" " A@X.com " "pw1" 5 emptyState).2.2.2 (by decide) "b@y.com" "pw2" 6⟩

/-- A blocked ordinary user. -/
def bobU : User :=
  { id := 2, username := "bob", email := "b@x.com",
    password_hash := generate_password_hash "pw2",
    is_admin := false, blocked := true, avatar_url := "", created_at := 0 }

/-- A blocked user carrying the admin flag. -/
def rootU : User :=
  { id := 3, username := "root", email := "r@x.com",
    password_hash := generate_password_hash "pw3",
    is_admin := true, blocked := true, avatar_url := "", created_at := 0 }

/-- A store with a blocked user and a blocked admin-flagged user. -/
def blockedState : AppState :=
  { emptyState with users := [bobU, rootU], nextUserId := 4 }

/-- C8: on the user-role path, a blocked non-admin user with matching
password gets ForbiddenError and the store (hence the session) is
unchanged, while a blocked user with the admin flag still logs in and the
session is bound to their id. -/
theorem C8_blocked_login (cfg : Config) (username0 password role0 : String)
    (now : Nat) (s : AppState) (u : User)
    (hrole : pyStrip role0 ≠ "admin")
    (hfind : s.users.find? (fun v => v.username == pyStrip username0) = some u)
    (hpw : check_password_hash u.password_hash password = true)
    (hblocked : u.blocked = true) :
    (u.is_admin = false →
      login cfg username0 password role0 now s = (.forbiddenError, s)) ∧
    (u.is_admin = true →
      login cfg username0 password role0 now s
        = (.success u.id, { s with session := some u.id })) := by
  have hrb : (pyStrip role0 == "admin") = false := by simp [hrole]
  have hbase : login cfg username0 password role0 now s
      = loginCheck (some u) password s := by
    simp only [login]
    rw [hrb]
    simp only [Bool.false_eq_true, if_false]
    rw [hfind]
  constructor
  · intro hadm
    rw [hbase]
    simp only [loginCheck, hpw, hblocked, hadm]
    rfl
  · intro hadm
    rw [hbase]
    simp only [loginCheck, hpw, hblocked, hadm]
    rfl

/-- C8 witness: bob (blocked, non-admin) is refused with the store
unchanged; root (blocked, admin flag) logs in and gets a session. -/
theorem C8_blocked_login_witness :
    login defaultConfig "bob" "pw2" "user" 5 blockedState
      = (.forbiddenError, blockedState) ∧
    login defaultConfig "root" "pw3" "user" 5 blockedState
      = (.success 3, { blockedState with session := some 3 }) :=
  ⟨(C8_blocked_login defaultConfig "bob" "pw2" "user" 5 blockedState bobU
      (by decide) (by decide) (by decide) rfl).1 rfl,
   by
    have h := (C8_blocked_login defaultConfig "root" "pw3" "user" 5 blockedState rootU
      (by decide) (by decide) (by decide) rfl).2 rfl
    rw [h]
    rfl⟩

/-- Inserting into the descending feed order is a permutation. -/
lemma insertDesc_perm (p : Post) (l : List Post) : List.Perm (insertDesc p l) (p :: l) := by
  induction l with
  | nil => exact List.Perm.refl _
  | cons q qs ih =>
    unfold insertDesc
    by_cases h : q.created_at ≤ p.created_at
    · rw [if_pos h]
    · rw [if_neg h]
      exact (ih.cons q).trans (List.Perm.swap p q qs)

/-- sortDesc permutes its input. -/
lemma sortDesc_perm (l : List Post) : List.Perm (sortDesc l) l := by
  induction l with
  | nil => exact List.Perm.refl _
  | cons p ps ih => exact (insertDesc_perm p (sortDesc ps)).trans (ih.cons p)

/-- Insertion preserves descending sortedness. -/
lemma insertDesc_sorted (p : Post) (l : List Post)
    (h : List.Pairwise (fun a b : Post => b.created_at ≤ a.created_at) l) :
    List.Pairwise (fun a b : Post => b.created_at ≤ a.created_at) (insertDesc p l) := by
  induction l with
  | nil => simp [insertDesc]
  | cons q qs ih =>
    rw [List.pairwise_cons] at h
    obtain ⟨hq, hqs⟩ := h
    unfold insertDesc
    by_cases hle : q.created_at ≤ p.created_at
    · rw [if_pos hle]
      refine List.pairwise_cons.mpr ⟨?_, List.pairwise_cons.mpr ⟨hq, hqs⟩⟩
      intro b hb
      rcases List.mem_cons.mp hb with rfl | hb2
      · exact hle
      · exact le_trans (hq b hb2) hle
    · rw [if_neg hle]
      have hpq : p.created_at ≤ q.created_at := Nat.le_of_not_le hle
      refine List.pairwise_cons.mpr ⟨?_, ih hqs⟩
      intro b hb
      have hb2 : b = p ∨ b ∈ qs := by
        have := (insertDesc_perm p qs).mem_iff.mp hb
        simpa using this
      rcases hb2 with rfl | hb2
      · exact hpq
      · exact hq b hb2

/-- sortDesc sorts by created_at descending. -/
lemma sortDesc_sorted (l : List Post) :
    List.Pairwise (fun a b : Post => b.created_at ≤ a.created_at) (sortDesc l) := by
  induction l with
  | nil => simp [sortDesc]
  | cons p ps ih => exact insertDesc_sorted p (sortDesc ps) ih

/-- Feed membership: exactly the non-deleted posts of the store. -/
lemma mem_index (s : AppState) (p : Post) :
    p ∈ index s ↔ (p ∈ s.posts ∧ p.is_deleted = false) := by
  unfold index
  rw [(sortDesc_perm _).mem_iff, List.mem_filter]
  simp

/-- An admin caller. -/
def adminCaller : Option User :=
  some { id := 9, username := "admin", email := "admin@amrita.edu", password_hash := generate_password_hash "Admin@12345", is_admin := true, blocked := false, avatar_url := "", created_at := 0 }

/-- C6: the feed is exactly the non-soft-deleted posts ordered by
creation time descending; a soft-deleted post never appears, and after an
admin restores a post with the feed's id it appears in the feed again. -/
theorem C6_feed (s : AppState) (caller : Option User) (q : Post) (pid : Nat)
    (hadm : admin_only caller = true) (hq : q ∈ s.posts) (hid : q.id = pid) :
    (∀ p : Post, p ∈ index s ↔ (p ∈ s.posts ∧ p.is_deleted = false)) ∧
    List.Pairwise (fun a b : Post => b.created_at ≤ a.created_at) (index s) ∧
    (∀ p : Post, p.is_deleted = true → p ∉ index s) ∧
    ({ q with is_deleted := false } ∈ index (admin_restore_post caller pid s).2) := by
  refine ⟨fun p => mem_index s p, sortDesc_sorted _, ?_, ?_⟩
  · intro p hdel habs
    have := (mem_index s p).mp habs
    rw [hdel] at this
    exact absurd this.2 (by decide)
  · have hsome : ∃ r, s.posts.find? (fun p => p.id == pid) = some r := by
      have : (s.posts.find? (fun p => p.id == pid)).isSome = true :=
        List.find?_isSome.mpr ⟨q, hq, by simp [hid]⟩
      exact Option.isSome_iff_exists.mp this
    obtain ⟨r, hr⟩ := hsome
    have hstate : (admin_restore_post caller pid s).2.posts
        = s.posts.map (fun p => if p.id == pid then { p with is_deleted := false } else p) := by
      unfold admin_restore_post
      rw [hadm]
      simp only [Bool.not_true, Bool.false_eq_true, if_false]
      rw [hr]
    refine (mem_index _ _).mpr ⟨?_, rfl⟩
    rw [hstate]
    have himg : (fun p => if p.id == pid then { p with is_deleted := false } else p) q
        = { q with is_deleted := false } := by
      simp [hid]
    rw [← himg]
    exact List.mem_map_of_mem _ hq

/-- C6 witness: with the only post soft-deleted the feed is empty; after
the admin restores it, the restored post is in the feed. -/
theorem C6_feed_witness :
    ({ helloP with is_deleted := true } ∈ deletedState.posts) ∧
    (helloP ∈ index (admin_restore_post adminCaller 1 deletedState).2) :=
  ⟨by decide,
   (C6_feed deletedState adminCaller { helloP with is_deleted := true } 1
     (by decide) (by decide) rfl).2.2.2⟩

/-- C9: for an admin caller and an existing post id, soft-delete sets the
post's is_deleted flag and restore clears it, and nothing else changes:
users, comments, likes and the session are untouched, the number of post
rows is preserved (no row destroyed), every other post is kept verbatim,
and the targeted post keeps all its other fields. -/
theorem C9_moderation_frame (caller : Option User) (pid : Nat) (s : AppState) (q : Post)
    (hadm : admin_only caller = true)
    (hfind : s.posts.find? (fun p => p.id == pid) = some q) :
    (admin_delete_post caller pid s).1 = .ok ∧
    (admin_restore_post caller pid s).1 = .ok ∧
    ((admin_delete_post caller pid s).2.users = s.users ∧
      (admin_delete_post caller pid s).2.comments = s.comments ∧
      (admin_delete_post caller pid s).2.likes = s.likes ∧
      (admin_delete_post caller pid s).2.session = s.session) ∧
    ((admin_restore_post caller pid s).2.users = s.users ∧
      (admin_restore_post caller pid s).2.comments = s.comments ∧
      (admin_restore_post caller pid s).2.likes = s.likes ∧
      (admin_restore_post caller pid s).2.session = s.session) ∧
    (admin_delete_post caller pid s).2.posts.length = s.posts.length ∧
    (admin_restore_post caller pid s).2.posts.length = s.posts.length ∧
    (∀ p ∈ s.posts, p.id ≠ pid →
      p ∈ (admin_delete_post caller pid s).2.posts ∧
      p ∈ (admin_restore_post caller pid s).2.posts) ∧
    (∀ p ∈ s.posts, p.id = pid →
      { p with is_deleted := true } ∈ (admin_delete_post caller pid s).2.posts ∧
      { p with is_deleted := false } ∈ (admin_restore_post caller pid s).2.posts) := by
  have hdel : admin_delete_post caller pid s
      = (.ok, { s with posts := s.posts.map (fun p => if p.id == pid then { p with is_deleted := true } else p) }) := by
    unfold admin_delete_post
    rw [hadm]
    simp only [Bool.not_true, Bool.false_eq_true, if_false]
    rw [hfind]
  have hres : admin_restore_post caller pid s
      = (.ok, { s with posts := s.posts.map (fun p => if p.id == pid then { p with is_deleted := false } else p) }) := by
    unfold admin_restore_post
    rw [hadm]
    simp only [Bool.not_true, Bool.false_eq_true, if_false]
    rw [hfind]
  rw [hdel, hres]
  refine ⟨rfl, rfl, ⟨rfl, rfl, rfl, rfl⟩, ⟨rfl, rfl, rfl, rfl⟩,
    List.length_map _ _, List.length_map _ _, ?_, ?_⟩
  · intro p hp hne
    have hb : (p.id == pid) = false := by simp [hne]
    constructor
    · have : (fun r : Post => if r.id == pid then { r with is_deleted := true } else r) p = p := by
        simp [hb]
      rw [← this]
      exact List.mem_map_of_mem _ hp
    · have : (fun r : Post => if r.id == pid then { r with is_deleted := false } else r) p = p := by
        simp [hb]
      rw [← this]
      exact List.mem_map_of_mem _ hp
  · intro p hp heq
    constructor
    · have : (fun r : Post => if r.id == pid then { r with is_deleted := true } else r) p
          = { p with is_deleted := true } := by
        simp [heq]
      rw [← this]
      exact List.mem_map_of_mem _ hp
    · have : (fun r : Post => if r.id == pid then { r with is_deleted := false } else r) p
          = { p with is_deleted := false } := by
        simp [heq]
      rw [← this]
      exact List.mem_map_of_mem _ hp

/-- C9 witness: soft-deleting and restoring the only post at the concrete
store acknowledges ok, keeps one post row, and toggles only its flag. -/
theorem C9_moderation_frame_witness :
    (admin_delete_post adminCaller 1 baseState).1 = .ok ∧
    (admin_delete_post adminCaller 1 baseState).2.posts.length = baseState.posts.length ∧
    (admin_delete_post adminCaller 1 baseState).2.likes = baseState.likes ∧
    ({ helloP with is_deleted := true } ∈ (admin_delete_post adminCaller 1 baseState).2.posts) := by
  have h := C9_moderation_frame adminCaller 1 baseState helloP (by decide) (by decide)
  exact ⟨h.1, h.2.2.2.2.1, h.2.2.1.2.2.1, (h.2.2.2.2.2.2.2 helloP (by decide) rfl).1⟩

end Morphx
